import Mathlib

/-!
Shallow embedding of the wallet-session component (`Web3ManagerStable`,
src/js/config.js) of the FeedLoop front-end, together with the parts of the
feedback-submission flow (src/js/app.js) that call into it.

Modelling conventions:
* The mutable fields of the `Web3ManagerStable` instance become the fields of
  `WalletState`; each method becomes a pure function from the old state (plus
  the environment inputs the method reads) to the new state, the list of
  emitted UI/provider effects, and its return value.
* DOM writes, console output, notifications, provider requests and scheduled
  callbacks are recorded as `UIEvent`s in emission order.
* `Date.now()` and the `Math.random()`-derived hash suffix are inputs
  (`RewardEnv`); the provider's response to `eth_requestAccounts` and the
  MetaMask-availability check are inputs (`ConnectEnv`).
* JavaScript numbers that the component only ever adds and multiplies
  (balances, reward amounts) are modelled as rationals.
-/

/-- One entry of `transactionHistory` (the object literals built in
`simulateReward`, `sendDemoReward`, `trackReward`). `from`/`to` are Lean
keywords, hence `fromAddr`/`toAddr`. The `demo` field is only set (to `true`)
by `sendDemoReward`; elsewhere it is absent, modelled as `false`. -/
structure Transaction where
  hash : String
  fromAddr : String
  toAddr : String
  amount : ℚ
  timestamp : Nat
  status : String
  type : String
  demo : Bool
  deriving DecidableEq

/-- The mutable session fields of `Web3ManagerStable` (constructor,
config.js). `web3` abstracts the `this.web3` object to presence/absence. -/
structure WalletState where
  web3 : Bool
  account : Option String
  isConnected : Bool
  isConnecting : Bool
  isInitialized : Bool
  demoMode : Bool
  transactionHistory : List Transaction
  connectionAttempts : Nat
  maxConnectionAttempts : Nat
  deriving DecidableEq

/-- Observable effects emitted by the component, in emission order:
console output, the connect-button "Connecting..." update
(`updateConnectingUI`), generic button refresh (`updateUI`), the demo
interface, the `eth_requestAccounts` provider call, the chain-related provider
calls of `ensureCorrectNetwork`/`switchNetwork` (collapsed into one marker:
they never issue `eth_requestAccounts` and never touch session state),
balance display (`updateBalanceUI`), `showNotification`, notifications and
balance reloads deferred with `setTimeout`, and key-value-store writes. -/
inductive UIEvent where
  | log (msg : String)
  | connectingUI
  | updateUI
  | createDemoInterface
  | requestAccounts
  | networkCheck
  | balanceUpdate (native : String) (shm : ℚ)
  | notify (msg : String) (severity : String)
  | scheduleNotify (msg : String) (severity : String)
  | scheduleBalanceReload
  | storageSet (key : String)
  deriving DecidableEq

/-- `this.rewardPoolAddress` (constructor). -/
def rewardPoolAddress : String := "0x694B31c92E618d24D254bb10e7BF22a4a3C1151b"

/-- The fixed account that `connectDemoWallet` installs. -/
def demoWalletAccount : String := "0x742d35Cc6634C0532925a3b8D98d27f65d3c3eA6"

/-- `formatAddress` (config.js): first six characters, an ellipsis, last four
characters; empty input stays empty.  JS `substr(-4)` clamps exactly like
truncated subtraction does. -/
def formatAddress (a : String) : String :=
  if a = "" then "" else a.take 6 ++ "..." ++ a.drop (a.length - 4)

/-- `getUserContributionCount` (config.js): stored feedback count plus stored
report count; the two store reads are inputs here. -/
def getUserContributionCount (feedbacks reports : Nat) : Nat :=
  feedbacks + reports

/-- The SHM figure computed by `loadBalance` in live mode
(`userContributions * 0.01`, config.js line 1052). -/
def liveShmBalance (contribs : Nat) : ℚ := contribs * (1 / 100)

/-- The SHM figure computed by `loadDemoBalance`
(`0.123 + userContributions * 0.01`, config.js line 1063). -/
def demoShmBalance (contribs : Nat) : ℚ := 123 / 1000 + contribs * (1 / 100)

/-- The balance displayed for a given contribution count in a given mode:
the body of `loadDemoBalance` resp. of the live branch of `loadBalance`. -/
def shmBalance (contribs : Nat) (demoMode : Bool) : ℚ :=
  if demoMode then demoShmBalance contribs else liveShmBalance contribs

/-- `loadDemoBalance` (config.js): unconditionally display the demo figures. -/
def loadDemoBalance (contribs : Nat) : List UIEvent :=
  [.balanceUpdate "2.456" (demoShmBalance contribs)]

/-- `loadBalance` (config.js): demo mode delegates to `loadDemoBalance`;
otherwise nothing happens without an account and a web3 object; otherwise the
live figures are displayed. -/
def loadBalance (contribs : Nat) (s : WalletState) : List UIEvent :=
  if s.demoMode then loadDemoBalance contribs
  else if s.account.isNone || !s.web3 then []
  else [.balanceUpdate "0.000" (liveShmBalance contribs)]

/-- `enableDemoMode` (config.js): sets `demoMode`, `isInitialized`, clears
`isConnecting`, builds the demo interface, refreshes the UI and schedules the
demo-mode notification. -/
def enableDemoMode (s : WalletState) : WalletState × List UIEvent :=
  ({ s with demoMode := true, isInitialized := true, isConnecting := false },
   [.log "🎭 Demo mode enabled", .createDemoInterface, .updateUI,
    .scheduleNotify "🎭 Demo Mode: Full blockchain simulation active!" "info"])

/-- `connectDemoWallet` (config.js). The transient `isConnecting = true` is
cleared again by the `finally` before the call returns, so the atomic model
leaves the flag as it found it. -/
def connectDemoWallet (contribs : Nat) (s : WalletState) :
    WalletState × List UIEvent × Bool :=
  if s.isConnecting then (s, [], false)
  else
    ({ s with account := some demoWalletAccount, isConnected := true },
     [.log "🎭 Connecting demo wallet...", .connectingUI,
      .notify "🔄 Connecting demo wallet..." "info", .updateUI] ++
      loadDemoBalance contribs ++
      [.notify "🎭 Demo wallet connected! Submit content to earn rewards!"
        "success"],
     true)

/-- Environment a `connectWallet` call reads: the `isMetaMaskAvailable()`
check, the outcome of the `eth_requestAccounts` request (accounts, or a
rejection carrying an error code; a thrown `Error` without a numeric code is
modelled as code `0`, which the `error.code === 4001` test treats the same as
any non-4001 code), and the stored contribution count read by the balance
loaders. -/
structure ConnectEnv where
  metaMaskAvailable : Bool
  requestAccountsResult : Except Int (List String)
  contribs : Nat

/-- The `catch` block of `connectWallet` followed by its `finally` block.
`code = none` models a thrown `Error` whose `code` is `undefined` (MetaMask
unavailable, or an empty accounts array). `s1` already carries the
incremented attempt counter. -/
def connectFail (code : Option Int) (s1 : WalletState) (evs : List UIEvent) :
    WalletState × List UIEvent × Bool :=
  let errLog := UIEvent.log "❌ Wallet connection error:"
  if code = some 4001 then
    (s1, evs ++ [errLog, .notify "❌ Connection rejected by user" "warning",
      .updateUI], false)
  else if s1.connectionAttempts ≥ s1.maxConnectionAttempts then
    let demo := enableDemoMode s1
    (demo.1, evs ++ [errLog,
      .notify "❌ Connection failed, switching to demo mode" "error"] ++
      demo.2, false)
  else
    (s1, evs ++ [errLog, .notify "❌ Connection failed, please try again"
      "error", .updateUI], false)

/-- `connectWallet` (config.js): in-flight guard, demo-mode delegation,
attempt-cap fallback, then the live attempt — availability check,
"Connecting..." UI, the `eth_requestAccounts` request, and the
success / rejection / generic-failure continuations, each followed by the
`finally` block (`isConnecting = false`; `updateUI` unless in demo mode). -/
def connectWallet (env : ConnectEnv) (s : WalletState) :
    WalletState × List UIEvent × Bool :=
  if s.isConnecting then
    (s, [.log "⚠️ Connection already in progress..."], false)
  else if s.demoMode then
    connectDemoWallet env.contribs s
  else if s.connectionAttempts ≥ s.maxConnectionAttempts then
    let demo := enableDemoMode s
    (demo.1,
     [.log "⚠️ Maximum connection attempts reached, using demo mode"] ++
       demo.2, false)
  else
    let s1 := { s with connectionAttempts := s.connectionAttempts + 1 }
    let attemptLog := UIEvent.log ("🔌 Connecting to MetaMask (attempt " ++
      toString s1.connectionAttempts ++ "/" ++
      toString s1.maxConnectionAttempts ++ ")...")
    if !env.metaMaskAvailable then
      connectFail none s1 [attemptLog]
    else
      match env.requestAccountsResult with
      | .error code =>
        connectFail (some code) s1 [attemptLog, .connectingUI, .requestAccounts]
      | .ok [] =>
        connectFail none s1 [attemptLog, .connectingUI, .requestAccounts]
      | .ok (a :: _) =>
        let s2 := { s1 with
          account := some a, isConnected := true, connectionAttempts := 0 }
        (s2,
         [attemptLog, .connectingUI, .requestAccounts,
          .log ("✅ Wallet connected: " ++ formatAddress a),
          .networkCheck, .updateUI] ++ loadBalance env.contribs s2 ++
          [.notify "✅ Wallet connected successfully!" "success", .updateUI],
         true)

/-- `disconnectWallet` (config.js): rejected with a console warning while a
connect attempt is in flight; otherwise clears the account, the connected
flag and the attempt counter, refreshes the UI, and emits the
mode-naming notification. -/
def disconnectWallet (s : WalletState) : WalletState × List UIEvent :=
  if s.isConnecting then
    (s, [.log "⚠️ Cannot disconnect while connecting"])
  else
    ({ s with account := none, isConnected := false, connectionAttempts := 0 },
     [.log "👋 Disconnecting wallet...", .updateUI,
      .notify ("👋 " ++ (if s.demoMode then "Demo wallet" else "Wallet") ++
        " disconnected") "info"])

/-- `handleAccountsChanged` (config.js): ignored while connecting; an empty
account list disconnects a connected session; a changed first account is
installed and the balance re-derived; an unchanged first account does
nothing further. -/
def handleAccountsChanged (contribs : Nat) (accounts : List String)
    (s : WalletState) : WalletState × List UIEvent :=
  if s.isConnecting then
    (s, [.log "⚠️ Ignoring account change during connection"])
  else
    let evs0 : List UIEvent := [.log "🔄 Handling account change..."]
    match accounts with
    | [] =>
      if s.isConnected then
        let d := disconnectWallet s
        (d.1, evs0 ++ [.log "❌ No accounts, disconnecting"] ++ d.2)
      else (s, evs0)
    | a :: _ =>
      if s.account = some a then (s, evs0)
      else
        let s1 := { s with account := some a, isConnected := true }
        (s1, evs0 ++ [.log ("🔄 Account switched to: " ++ formatAddress a),
          .updateUI] ++ loadBalance contribs s1)

/-- `recordTransaction` (config.js): `unshift` the new record, then keep only
the first (newest) 50 entries when the length exceeds 50.  The store write it
also performs is emitted by the callers as a `storageSet` event. -/
def recordTransaction (tx : Transaction) (hist : List Transaction) :
    List Transaction :=
  let h2 := tx :: hist
  if h2.length > 50 then h2.take 50 else h2

/-- The inputs a reward call reads from the platform: `Date.now()` and the
`Math.random().toString(36).substr(2, 6)` hash suffix. -/
structure RewardEnv where
  now : Nat
  rand : String
  deriving DecidableEq

/-- `simulateReward` (config.js): disconnected path — records a `simulated`
transaction addressed to `"Pending Connection"` and notifies that the reward
is pending wallet connection. -/
def simulateReward (env : RewardEnv) (amount : ℚ) (s : WalletState) :
    WalletState × List UIEvent × String :=
  let tx : Transaction :=
    { hash := "0xsim" ++ toString env.now ++ env.rand,
      fromAddr := rewardPoolAddress, toAddr := "Pending Connection",
      amount := amount, timestamp := env.now, status := "simulated",
      type := "reward", demo := false }
  ({ s with transactionHistory := recordTransaction tx s.transactionHistory },
   [.storageSet "transaction_history",
    .notify ("🪙 You earned " ++ toString amount ++
      " SHM! Connect wallet to track rewards.") "success"],
   tx.hash)

/-- `sendDemoReward` (config.js): demo path — records a `confirmed` demo
transaction, notifies success, schedules a demo-balance reload. -/
def sendDemoReward (env : RewardEnv) (recipient : String) (amount : ℚ)
    (s : WalletState) : WalletState × List UIEvent × String :=
  let tx : Transaction :=
    { hash := "0xdemo" ++ toString env.now ++ env.rand,
      fromAddr := rewardPoolAddress, toAddr := recipient,
      amount := amount, timestamp := env.now, status := "confirmed",
      type := "reward", demo := true }
  ({ s with transactionHistory := recordTransaction tx s.transactionHistory },
   [.storageSet "transaction_history",
    .notify ("🎉 Demo reward earned! +" ++ toString amount ++ " SHM tokens!")
      "success",
    .scheduleBalanceReload],
   tx.hash)

/-- `trackReward` (config.js): connected live path — records a `tracked`
transaction (no on-chain transfer), notifies success, schedules a balance
reload. -/
def trackReward (env : RewardEnv) (recipient : String) (amount : ℚ)
    (s : WalletState) : WalletState × List UIEvent × String :=
  let tx : Transaction :=
    { hash := "0xtrack" ++ toString env.now ++ env.rand,
      fromAddr := rewardPoolAddress, toAddr := recipient,
      amount := amount, timestamp := env.now, status := "tracked",
      type := "reward", demo := false }
  ({ s with transactionHistory := recordTransaction tx s.transactionHistory },
   [.storageSet "transaction_history",
    .notify ("🎉 Reward earned! +" ++ toString amount ++
      " SHM added to your balance!") "success",
    .scheduleBalanceReload],
   tx.hash)

/-- `sendReward(recipientAddress, amount = 0.01)` (config.js): `none` models
an omitted `amount` argument, as in the `sendBlockchainReward` caller
(app.js), and defaults to `0.01`. -/
def sendReward (env : RewardEnv) (recipient : String) (amount : Option ℚ)
    (s : WalletState) : WalletState × List UIEvent × String :=
  let amt := amount.getD (1 / 100)
  if !s.isConnected then simulateReward env amt s
  else if s.demoMode then sendDemoReward env recipient amt s
  else trackReward env recipient amt s

/-- Counts the `updateConnectingUI` ("show connecting") effects in a trace. -/
def countConnectingUI (evs : List UIEvent) : Nat :=
  evs.countP fun e => match e with
    | .connectingUI => true
    | _ => false

/-- Counts the `eth_requestAccounts` provider requests in a trace. -/
def countRequestAccounts (evs : List UIEvent) : Nat :=
  evs.countP fun e => match e with
    | .requestAccounts => true
    | _ => false

/-- Counts every provider contact in a trace: `eth_requestAccounts` plus the
chain-related calls of the network check. -/
def countProviderContacts (evs : List UIEvent) : Nat :=
  evs.countP fun e => match e with
    | .requestAccounts => true
    | .networkCheck => true
    | _ => false

/-- Whether a trace contains a balance display (`updateBalanceUI`). -/
def hasBalanceUpdate (evs : List UIEvent) : Bool :=
  evs.any fun e => match e with
    | .balanceUpdate _ _ => true
    | _ => false

/-! Reusable concrete states and environments, used by witnesses and
counterexamples below. -/

/-- A freshly initialized live-mode session: MetaMask was detected during
`init` (`demoMode = false`, `web3` set), no account yet, no attempts used. -/
def initLiveState : WalletState :=
  { web3 := true, account := none, isConnected := false, isConnecting := false,
    isInitialized := true, demoMode := false, transactionHistory := [],
    connectionAttempts := 0, maxConnectionAttempts := 3 }

/-- Environment in which the user rejects the MetaMask prompt
(`error.code === 4001`). -/
def rejectEnv : ConnectEnv :=
  { metaMaskAvailable := true, requestAccountsResult := .error 4001,
    contribs := 0 }

/-- Environment in which `isMetaMaskAvailable()` is false at call time. -/
def noMetaMaskEnv : ConnectEnv :=
  { metaMaskAvailable := false, requestAccountsResult := .error 0,
    contribs := 0 }

/-- A sample transaction record, as `simulateReward` would build it. -/
def sampleTx : Transaction :=
  { hash := "0xsim10abcdef", fromAddr := rewardPoolAddress,
    toAddr := "Pending Connection", amount := 1 / 100, timestamp := 1,
    status := "simulated", type := "reward", demo := false }

/-- `initLiveState` with a connect attempt currently in flight. -/
def connectingState : WalletState := { initLiveState with isConnecting := true }

/-- `initLiveState` after the attempt counter has reached the maximum. -/
def exhaustedState : WalletState :=
  { initLiveState with connectionAttempts := 3 }

/-- A live session connected to account `0xABC`. -/
def connectedState : WalletState :=
  { initLiveState with account := some "0xABC", isConnected := true }

/-- A live session connected to a different account, with a non-empty log:
same mode as `connectedState`, different everything else the balance could
illegitimately depend on. -/
def connectedStateB : WalletState :=
  { initLiveState with
    account := some "0xDEF", isConnected := true,
    transactionHistory := [sampleTx] }

/-- A session that has fallen back to demo mode and connected the demo
wallet. -/
def demoState : WalletState :=
  { initLiveState with
    demoMode := true, account := some demoWalletAccount,
    isConnected := true }

/-! Helper lemmas. -/

/-- A string with a nonempty prefix is nonempty. -/
theorem prefixed_append_ne_empty (p t r : String) (hp : 0 < p.length) :
    p ++ t ++ r ≠ "" := by
  intro h
  have hlen := congrArg String.length h
  simp only [String.length_append, String.length_empty] at hlen
  omega

/-- One append keeps the log within the cap. -/
theorem recordTransaction_length_le (tx : Transaction)
    (hist : List Transaction) (hle : hist.length ≤ 50) :
    (recordTransaction tx hist).length ≤ 50 := by
  simp only [recordTransaction]
  split
  · simp [List.length_take]
  · simp only [List.length_cons] at *
    omega

/-- Any run of appends starting within the cap stays within the cap. -/
theorem foldl_record_length_le (txs : List Transaction)
    (hist : List Transaction) (hle : hist.length ≤ 50) :
    (txs.foldl (fun h tx => recordTransaction tx h) hist).length ≤ 50 := by
  induction txs generalizing hist with
  | nil => simpa using hle
  | cons t ts ih => exact ih _ (recordTransaction_length_le t hist hle)

/-- The newest record is always at the head of the log after an append. -/
theorem recordTransaction_head (tx : Transaction) (hist : List Transaction) :
    (recordTransaction tx hist).head? = some tx := by
  simp only [recordTransaction]
  split
  · rw [show (50 : Nat) = 49 + 1 from rfl, List.take_succ_cons, List.head?_cons]
  · exact List.head?_cons

/-- C1: for every session state (disconnected, connected-demo, connected-live)
and all inputs, `sendReward` is total (the model is a total function, as the
source has no throw outside caught regions) and returns a hash beginning with
`0xsim`/`0xdemo`/`0xtrack`, hence a non-empty string. -/
theorem sendReward_never_fails (env : RewardEnv) (recipient : String)
    (amount : Option ℚ) (s : WalletState) :
    (sendReward env recipient amount s).2.2 ≠ "" := by
  unfold sendReward simulateReward sendDemoReward trackReward
  split
  · exact prefixed_append_ne_empty "0xsim" (toString env.now) env.rand
      (by decide)
  · split
    · exact prefixed_append_ne_empty "0xdemo" (toString env.now) env.rand
        (by decide)
    · exact prefixed_append_ne_empty "0xtrack" (toString env.now) env.rand
        (by decide)

/-- C2: starting from the empty log, no sequence of `recordTransaction` calls
ever leaves more than 50 entries, and an append to a log of exactly 50
entries keeps the new record plus all but the last stored entry — the last
entry, which `unshift` semantics make the oldest (first-appended) one, is the
record evicted (FIFO). -/
theorem transactionLog_capped_fifo :
    (∀ txs : List Transaction,
      (txs.foldl (fun h tx => recordTransaction tx h) []).length ≤ 50) ∧
    (∀ (tx : Transaction) (hist : List Transaction), hist.length = 50 →
      recordTransaction tx hist = tx :: hist.dropLast) := by
  constructor
  · intro txs
    exact foldl_record_length_le txs [] (by simp)
  · intro tx hist h50
    simp only [recordTransaction]
    rw [if_pos (by simp [h50])]
    rw [show (50 : Nat) = 49 + 1 from rfl, List.take_succ_cons,
      List.dropLast_eq_take, h50]

/-- Witness for C2: appending to a concrete 50-entry log evicts exactly the
last (oldest) entry. -/
theorem transactionLog_capped_fifo_witness :
    recordTransaction sampleTx (List.replicate 50 sampleTx) =
      sampleTx :: (List.replicate 50 sampleTx).dropLast :=
  transactionLog_capped_fifo.2 sampleTx (List.replicate 50 sampleTx) (by simp)

/-- C10: with the `amount` argument omitted (as in `sendBlockchainReward`,
app.js), the transaction recorded at the head of the log carries the default
amount `0.01`, in every session state. -/
theorem sendReward_default_amount (env : RewardEnv) (recipient : String)
    (s : WalletState) :
    ((sendReward env recipient none s).1.transactionHistory.head?.map
      Transaction.amount) = some (1 / 100) := by
  unfold sendReward simulateReward sendDemoReward trackReward
  split
  · simp [recordTransaction_head]
  · split
    · simp [recordTransaction_head]
    · simp [recordTransaction_head]

/-- Counting `eth_requestAccounts` requests distributes over traces. -/
theorem countRequestAccounts_append (l1 l2 : List UIEvent) :
    countRequestAccounts (l1 ++ l2) =
      countRequestAccounts l1 + countRequestAccounts l2 :=
  List.countP_append _ _ _

/-- Counting provider contacts distributes over traces. -/
theorem countProviderContacts_append (l1 l2 : List UIEvent) :
    countProviderContacts (l1 ++ l2) =
      countProviderContacts l1 + countProviderContacts l2 :=
  List.countP_append _ _ _

/-- Counting "show connecting" updates distributes over traces. -/
theorem countConnectingUI_append (l1 l2 : List UIEvent) :
    countConnectingUI (l1 ++ l2) =
      countConnectingUI l1 + countConnectingUI l2 :=
  List.countP_append _ _ _

/-- Balance-display detection distributes over traces. -/
theorem hasBalanceUpdate_append (l1 l2 : List UIEvent) :
    hasBalanceUpdate (l1 ++ l2) = (hasBalanceUpdate l1 || hasBalanceUpdate l2) :=
  List.any_append

/-- C3: every `connectWallet` call issues at most one `eth_requestAccounts`
request, and a call made while `isConnecting` is true returns failure without
touching session state and without any provider contact — so interleaved
connect calls can never have two live requests outstanding. -/
theorem connect_inflight_guard (env : ConnectEnv) (s : WalletState) :
    countRequestAccounts (connectWallet env s).2.1 ≤ 1 ∧
    (s.isConnecting = true →
      (connectWallet env s).1 = s ∧ (connectWallet env s).2.2 = false ∧
      countProviderContacts (connectWallet env s).2.1 = 0) := by
  constructor
  · unfold connectWallet connectFail connectDemoWallet enableDemoMode
    repeat' split
    all_goals simp [countRequestAccounts_append, loadBalance, loadDemoBalance,
      countRequestAccounts, List.countP_cons, List.countP_nil]
    all_goals repeat' split
    all_goals simp
  · intro h
    refine ⟨?_, ?_, ?_⟩ <;> simp [connectWallet, h, countProviderContacts]

/-- Witness for C3: a call on a state with an in-flight attempt is rejected
without provider contact or state change. -/
theorem connect_inflight_guard_witness :
    (connectWallet rejectEnv connectingState).1 = connectingState ∧
    (connectWallet rejectEnv connectingState).2.2 = false ∧
    countProviderContacts (connectWallet rejectEnv connectingState).2.1 = 0 :=
  (connect_inflight_guard rejectEnv connectingState).2 rfl

/-- Counterexample for C4: three consecutive live attempts all rejected by
the user (`error.code === 4001`) leave the session with `demoMode = false`
and the attempt counter at the maximum — the session is not yet in demo mode
after the third failure, contradicting the claim as stated. -/
theorem three_rejections_leave_live_mode :
    (connectWallet rejectEnv
      (connectWallet rejectEnv
        (connectWallet rejectEnv initLiveState).1).1).1.demoMode = false ∧
    (connectWallet rejectEnv
      (connectWallet rejectEnv
        (connectWallet rejectEnv initLiveState).1).1).1.connectionAttempts =
      3 := by
  decide

/-- C4 (amended): once the attempt counter has reached the configured
maximum, the next `connectWallet` call results in demo mode without any
provider contact — live connection is never retried. -/
theorem attempts_exhausted_next_connect_demo (env : ConnectEnv)
    (s : WalletState) (hC : s.isConnecting = false)
    (hmax : s.maxConnectionAttempts ≤ s.connectionAttempts) :
    (connectWallet env s).1.demoMode = true ∧
    countProviderContacts (connectWallet env s).2.1 = 0 := by
  unfold connectWallet connectDemoWallet enableDemoMode
  repeat' split
  all_goals first
    | (exfalso; omega)
    | simp_all [countProviderContacts_append, loadDemoBalance,
        countProviderContacts]

/-- Witness for C4 (amended): the fourth call after three failures falls
back to demo mode without contacting the provider. -/
theorem attempts_exhausted_next_connect_demo_witness :
    (connectWallet rejectEnv exhaustedState).1.demoMode = true ∧
    countProviderContacts (connectWallet rejectEnv exhaustedState).2.1 = 0 :=
  attempts_exhausted_next_connect_demo rejectEnv exhaustedState rfl (by decide)

/-- C5: the displayed balance is a pure function of the pair (contribution
count, mode): two sessions in the same mode display the same balance for the
same count, whatever their other fields, and the demo-mode value is the fixed
`0.123` baseline plus the same per-contribution product as live mode. -/
theorem balance_pure_function_of_count_mode (contribs : Nat)
    (s1 s2 : WalletState) (hm : s1.demoMode = s2.demoMode)
    (h1a : s1.account.isSome = true) (h1w : s1.web3 = true)
    (h2a : s2.account.isSome = true) (h2w : s2.web3 = true) :
    loadBalance contribs s1 = loadBalance contribs s2 ∧
    shmBalance contribs true = 123 / 1000 + shmBalance contribs false := by
  refine ⟨?_, rfl⟩
  unfold loadBalance
  rw [hm]
  obtain ⟨a1, ha1⟩ := Option.isSome_iff_exists.mp h1a
  obtain ⟨a2, ha2⟩ := Option.isSome_iff_exists.mp h2a
  cases hd : s2.demoMode <;> simp [ha1, ha2, h1w, h2w]

/-- Witness for C5: two different connected sessions in live mode display
the same balance for the same contribution count. -/
theorem balance_pure_function_of_count_mode_witness :
    loadBalance 2 connectedState = loadBalance 2 connectedStateB ∧
    shmBalance 2 true = 123 / 1000 + shmBalance 2 false :=
  balance_pure_function_of_count_mode 2 connectedState connectedStateB
    rfl rfl rfl rfl rfl

/-- C6: while connected to account `a`, an `accountsChanged` event carrying
that same first account leaves the entire session state unchanged and
triggers no balance display; an event carrying a different account installs
it, keeps the session connected, and re-derives the balance. -/
theorem accountsChanged_same_account_noop (contribs : Nat) (s : WalletState)
    (a b : String) (rest rest2 : List String)
    (hC : s.isConnecting = false) (hconn : s.isConnected = true)
    (hacc : s.account = some a) (hw : s.web3 = true) :
    ((handleAccountsChanged contribs (a :: rest) s).1 = s ∧
     hasBalanceUpdate (handleAccountsChanged contribs (a :: rest) s).2 =
       false) ∧
    (b ≠ a →
      (handleAccountsChanged contribs (b :: rest2) s).1.account = some b ∧
      (handleAccountsChanged contribs (b :: rest2) s).1.isConnected = true ∧
      hasBalanceUpdate (handleAccountsChanged contribs (b :: rest2) s).2 =
        true) := by
  constructor
  · simp [handleAccountsChanged, hC, hacc, hasBalanceUpdate]
  · intro hne
    have hne2 : s.account ≠ some b := by
      rw [hacc]
      intro h
      exact hne (Option.some.inj h).symm
    refine ⟨?_, ?_, ?_⟩ <;>
      simp [handleAccountsChanged, hC, hne2, hasBalanceUpdate_append,
        loadBalance, loadDemoBalance, hw, hasBalanceUpdate] <;>
      split <;> simp

/-- Witness for C6: a duplicate event for `0xABC` is a no-op; an event for
`0xDEF` switches the account and re-derives the balance. -/
theorem accountsChanged_same_account_noop_witness :
    ((handleAccountsChanged 1 ["0xABC"] connectedState).1 = connectedState ∧
     hasBalanceUpdate (handleAccountsChanged 1 ["0xABC"] connectedState).2 =
       false) ∧
    ((handleAccountsChanged 1 ["0xDEF"] connectedState).1.account =
       some "0xDEF" ∧
     (handleAccountsChanged 1 ["0xDEF"] connectedState).1.isConnected =
       true ∧
     hasBalanceUpdate (handleAccountsChanged 1 ["0xDEF"] connectedState).2 =
       true) :=
  ⟨(accountsChanged_same_account_noop 1 connectedState "0xABC" "0xDEF" [] []
      rfl rfl rfl rfl).1,
   (accountsChanged_same_account_noop 1 connectedState "0xABC" "0xDEF" [] []
      rfl rfl rfl rfl).2 (by decide)⟩

/-- Counterexample for C7: a live connect attempt made while
`isMetaMaskAvailable()` is false throws before `updateConnectingUI()` runs,
so this attempt — it increments the attempt counter to 1 — emits zero
"show connecting" updates, contradicting "no attempt emits zero". -/
theorem live_attempt_without_connecting_notice :
    countConnectingUI (connectWallet noMetaMaskEnv initLiveState).2.1 = 0 ∧
    (connectWallet noMetaMaskEnv initLiveState).1.connectionAttempts = 1 := by
  decide

/-- C7 (amended): a connect call emits exactly one "show connecting" update
when it proceeds to a demo attempt or to a live attempt with the provider
available, and zero when rejected by the in-flight guard, when falling back
to demo because attempts are exhausted, or when the availability check fails
before the UI update; no call ever emits more than one. -/
theorem connectingUI_count_characterization (env : ConnectEnv)
    (s : WalletState) :
    countConnectingUI (connectWallet env s).2.1 =
      (if s.isConnecting then 0
       else if s.demoMode then 1
       else if s.maxConnectionAttempts ≤ s.connectionAttempts then 0
       else if env.metaMaskAvailable then 1 else 0) := by
  unfold connectWallet connectDemoWallet connectFail enableDemoMode
  repeat' split
  all_goals simp_all [countConnectingUI_append, loadBalance, loadDemoBalance,
    countConnectingUI, List.countP_cons, List.countP_nil]
  all_goals repeat' split
  all_goals simp_all

/-- C8: `disconnectWallet` during an in-flight connect attempt leaves the
state untouched and emits only the conflict log; otherwise it clears the
account, disconnects, resets the attempt counter, and emits a notification
naming the torn-down mode ("Demo wallet" vs "Wallet"). -/
theorem disconnectWallet_contract (s : WalletState) :
    (s.isConnecting = true →
      (disconnectWallet s).1 = s ∧
      (disconnectWallet s).2 =
        [UIEvent.log "⚠️ Cannot disconnect while connecting"]) ∧
    (s.isConnecting = false →
      (disconnectWallet s).1.account = none ∧
      (disconnectWallet s).1.isConnected = false ∧
      (disconnectWallet s).1.connectionAttempts = 0 ∧
      (disconnectWallet s).2 =
        [UIEvent.log "👋 Disconnecting wallet...", .updateUI,
         .notify ("👋 " ++ (if s.demoMode then "Demo wallet" else "Wallet") ++
           " disconnected") "info"]) := by
  constructor <;> intro h <;> simp [disconnectWallet, h]

/-- Witness for C8: disconnecting a connected live session clears the
session and emits the "Wallet disconnected" notification. -/
theorem disconnectWallet_contract_witness :
    (disconnectWallet connectedState).1.account = none ∧
    (disconnectWallet connectedState).1.isConnected = false ∧
    (disconnectWallet connectedState).1.connectionAttempts = 0 ∧
    (disconnectWallet connectedState).2 =
      [UIEvent.log "👋 Disconnecting wallet...", .updateUI,
       .notify ("👋 " ++
         (if connectedState.demoMode then "Demo wallet" else "Wallet") ++
         " disconnected") "info"] :=
  (disconnectWallet_contract connectedState).2 rfl

/-- C9: `disconnectWallet` leaves `demoMode`, the transaction log,
`isInitialized`, `web3`, `isConnecting` and the attempt maximum unchanged —
it mutates only the account, the connected flag and the attempt counter — so
a demo-mode session stays in demo mode and its next `connectWallet` call
takes the demo path: no provider contact, demo account installed. -/
theorem disconnectWallet_frame (env : ConnectEnv) (s : WalletState)
    (hC : s.isConnecting = false) :
    ((disconnectWallet s).1.demoMode = s.demoMode ∧
     (disconnectWallet s).1.transactionHistory = s.transactionHistory ∧
     (disconnectWallet s).1.isInitialized = s.isInitialized ∧
     (disconnectWallet s).1.web3 = s.web3 ∧
     (disconnectWallet s).1.isConnecting = s.isConnecting ∧
     (disconnectWallet s).1.maxConnectionAttempts =
       s.maxConnectionAttempts) ∧
    (s.demoMode = true →
      countProviderContacts
        (connectWallet env (disconnectWallet s).1).2.1 = 0 ∧
      (connectWallet env (disconnectWallet s).1).1.demoMode = true ∧
      (connectWallet env (disconnectWallet s).1).1.account =
        some demoWalletAccount ∧
      (connectWallet env (disconnectWallet s).1).1.isConnected = true) := by
  constructor
  · simp [disconnectWallet, hC]
  · intro hd
    refine ⟨?_, ?_, ?_, ?_⟩ <;>
      simp [disconnectWallet, hC, connectWallet, connectDemoWallet, hd,
        countProviderContacts_append, loadDemoBalance, countProviderContacts]

/-- Witness for C9: disconnecting a connected demo session keeps it in demo
mode, and reconnecting goes through the demo path. -/
theorem disconnectWallet_frame_witness :
    ((disconnectWallet demoState).1.demoMode = demoState.demoMode ∧
     (disconnectWallet demoState).1.transactionHistory =
       demoState.transactionHistory ∧
     (disconnectWallet demoState).1.isInitialized =
       demoState.isInitialized ∧
     (disconnectWallet demoState).1.web3 = demoState.web3 ∧
     (disconnectWallet demoState).1.isConnecting = demoState.isConnecting ∧
     (disconnectWallet demoState).1.maxConnectionAttempts =
       demoState.maxConnectionAttempts) ∧
    (countProviderContacts
       (connectWallet rejectEnv (disconnectWallet demoState).1).2.1 = 0 ∧
     (connectWallet rejectEnv (disconnectWallet demoState).1).1.demoMode =
       true ∧
     (connectWallet rejectEnv (disconnectWallet demoState).1).1.account =
       some demoWalletAccount ∧
     (connectWallet rejectEnv
       (disconnectWallet demoState).1).1.isConnected = true) :=
  ⟨(disconnectWallet_frame rejectEnv demoState rfl).1,
   (disconnectWallet_frame rejectEnv demoState rfl).2 rfl⟩
